import Mathlib

/-!
Verification of the MCP client orchestration logic
(`MCP_client.py`, class `MCPClient`): the `connect` / `query` state
machine, the streaming-event aggregation that reconstructs the final
response, the step trace truncation, the greeting fast path, and the
conversation-memory behaviour.

The Python code is shallowly embedded: the client object becomes an
explicit state record, each `query()` call takes the outcome of the
`agent.astream(...)` iteration (an external effect) as an input, and
exceptions are modelled as an explicit `raised` outcome distinct from
the structured `status: error` dictionary the code returns from its
`except` block.
-/

namespace MCP

set_option maxRecDepth 8192

/-- Python `str.lower()`: lower-case every character. -/
def pyLower (s : String) : String :=
  ⟨s.data.map Char.toLower⟩

/-- Python `str.strip()`: remove leading and trailing whitespace. -/
def pyStrip (s : String) : String :=
  ⟨((s.data.dropWhile Char.isWhitespace).reverse.dropWhile
      Char.isWhitespace).reverse⟩

/-- Python slice `s[:n]`: the first `n` characters. -/
def pySlice (s : String) (n : Nat) : String :=
  ⟨s.data.take n⟩

/-- Python `s.startswith(p)`. -/
def pyStartsWith (s p : String) : Bool :=
  p.data.isPrefixOf s.data

/-- Role of a message stored in the LangChain chat memory
(`HumanMessage` / `AIMessage` appended by `save_context`). -/
inductive Role where
  | user
  | assistant
deriving DecidableEq, Repr

/-- One message of the conversation memory. -/
structure Exchange where
  role : Role
  content : String
deriving DecidableEq, Repr

/-- A message carried inside one streamed chunk of the agent run
(lines 319-349 of `MCP_client.py`): either an `AIMessage` with its
content and its `tool_calls` list (only the presence and names of the
calls matter to the client code), or a `ToolMessage` with the tool
name and the raw result content. -/
inductive Message where
  | ai (content : String) (tool_calls : List String)
  | tool (name : String) (content : String)
deriving DecidableEq, Repr

/-- `msg.content`: both `AIMessage` and `ToolMessage` carry a
`content` attribute (used at lines 329, 343, 363-365). -/
def Message.content : Message → String
  | .ai c _ => c
  | .tool _ c => c

/-- One `(node_name, node_output["messages"])` pair as iterated by
`for node_name, node_output in chunk.items()` (line 322). The whole
stream is the in-order list of these items across all chunks. -/
abbrev Item := String × List Message

/-- One record of `intermediate_steps` (lines 346-349). -/
structure Step where
  tool : String
  result : String
deriving DecidableEq, Repr

/-- The entries appended to `intermediate_steps` for the messages of a
`tools*` node (lines 341-349): one entry per `ToolMessage`, with
`result` equal to `str(msg.content)[:200]` — the first 200 characters
of the raw content, nothing appended. -/
def toolSteps (msgs : List Message) : List Step :=
  msgs.filterMap fun m =>
    match m with
    | .ai _ _ => none
    | .tool name content => some ⟨name, pySlice content 200⟩

/-- Messages a single chunk item contributes to `final_messages`:
both the `agent` node (line 326) and any `tools*` node (line 340)
extend `final_messages` with all their messages; other nodes are
ignored. -/
def itemFinalMessages (item : Item) : List Message :=
  if item.1 = "agent" then item.2
  else if pyStartsWith item.1 "tools" then item.2
  else []

/-- Step-trace entries a single chunk item contributes to
`intermediate_steps`: only `tools*` nodes contribute (lines 337-349);
the `agent` branch only logs. -/
def itemSteps (item : Item) : List Step :=
  if item.1 = "agent" then []
  else if pyStartsWith item.1 "tools" then toolSteps item.2
  else []

/-- The verbose streaming loop (lines 314-349): starting from empty
accumulators, each item appends its messages to `final_messages` and
its tool entries to `intermediate_steps`, in stream order. -/
def processItems (items : List Item) : List Message × List Step :=
  (items.flatMap itemFinalMessages, items.flatMap itemSteps)

/-- The reversed scan of lines 353-359 (argument already reversed):
skip non-AI messages, skip AI messages whose `tool_calls` list is
non-empty, and stop at the first remaining AI message, returning its
content (`msg.content or ""`) even when that content is empty; `""`
when the scan falls off the end. -/
def lastNonToolAITextRev : List Message → String
  | [] => ""
  | .ai content tool_calls :: rest =>
      if tool_calls = [] then content else lastNonToolAITextRev rest
  | .tool _ _ :: rest => lastNonToolAITextRev rest

/-- `response_text` after the `for msg in reversed(final_messages)`
loop of lines 353-359. -/
def lastNonToolAIText (final_messages : List Message) : String :=
  lastNonToolAITextRev final_messages.reverse

/-- Final-response extraction (lines 351-367): if `final_messages` is
empty, `response_text` keeps its initial value `""`; otherwise take
the last-non-tool-call AI content, and if that is falsy fall back to
the `content` of the very last accumulated message. -/
def extractResponse (final_messages : List Message) : String :=
  if final_messages = [] then ""
  else
    let response_text := lastNonToolAIText final_messages
    if response_text = "" then
      match final_messages.getLast? with
      | some last_msg => last_msg.content
      | none => ""
    else response_text

/-- `ClientConfig` (lines 139-157), with the settings the client logic
reads. -/
structure ClientConfig where
  groq_api_key : String
  groq_model : String
  mcp_url : String
  max_iterations : Nat
  agent_timeout : Nat
  memory_window_size : Nat
  connect_timeout : Nat
  verbose : Bool
deriving DecidableEq, Repr

/-- The mutable state of an `MCPClient` object: `agent` records
whether `self.agent` is set (the only thing `query()` checks for
connectedness), `memory` is `None` or the message list stored inside
the `ConversationBufferWindowMemory`, and `tools` the loaded tool
names. -/
structure MCPClient where
  config : ClientConfig
  agent : Bool
  memory : Option (List Exchange)
  tools : List String
deriving DecidableEq, Repr

/-- `MCPClient.__init__` (lines 166-173): no agent, no memory, no
tools. -/
def MCPClient.init (config : ClientConfig) : MCPClient :=
  { config := config, agent := false, memory := none, tools := [] }

/-- Outcome of a `connect()` call: normal return, or an exception
propagating to the caller (line 272 re-raises every failure as a
`RuntimeError`). -/
inductive ConnectResult where
  | ok
  | raised (msg : String)
deriving DecidableEq, Repr

/-- The external effect of one `connect()` call: the tool catalog the
MCP server returns from `get_tools()` (modelled by the tool names),
or the exception raised while starting the transport / fetching tools
(lines 212-218). -/
inductive ToolFetch where
  | ok (tools : List String)
  | exn (msg : String)
deriving DecidableEq, Repr

/-- `MCPClient.connect` (lines 175-272). A missing API key raises
before any state is touched (lines 179-182, re-wrapped at line 272).
Otherwise the memory is unconditionally re-created empty (lines
195-200) before the tools are fetched; on a successful fetch the tool
list is replaced and the agent rebuilt (lines 216-257). -/
def MCPClient.connect (st : MCPClient) (fetch : ToolFetch) :
    MCPClient × ConnectResult :=
  if st.config.groq_api_key = "" then
    (st, .raised
      "Failed to connect client: GROQ_API_KEY is missing. Set environment variable GROQ_API_KEY.")
  else
    let st1 : MCPClient := { st with memory := some [] }
    match fetch with
    | .exn e => (st1, .raised ("Failed to connect client: " ++ e))
    | .ok ts => ({ st1 with tools := ts, agent := true }, .ok)

/-- Outcome of one `query()` call: the `success` dictionary (lines
383-387), the `error` dictionary built in the `except` block (line
395), or an exception escaping to the caller (the `raise` at line 278
sits outside the `try`). -/
inductive QueryOutcome where
  | success (response : String) (intermediate_steps : List Step)
  | error (message : String)
  | raised (msg : String)
deriving DecidableEq, Repr

/-- The external effect of one `agent.astream(...)` iteration: either
it completes after yielding `items`, or it raises with message `msg`
after yielding a prefix of items (which the code then discards, since
the `except` block returns only the error message). -/
inductive StreamRun where
  | ok (items : List Item)
  | exn (items : List Item) (msg : String)
deriving DecidableEq, Repr

/-- The greeting set of line 282. -/
def greetings : List String := ["hi", "hello", "hey", "hi there"]

/-- `query.lower().strip() in {...}` (line 282). -/
def isGreeting (text : String) : Bool :=
  greetings.contains (pyStrip (pyLower text))

/-- The canned greeting answer (lines 285-289, three adjacent string
literals concatenated). -/
def cannedGreetingResponse : String :=
  "Hello! I'm your Assistant. I can help you search the internet, get the current time, perform calculations, and more. What would you like to know?"

/-- Python slice `l[-n:]`: the last `n` elements; for `n = 0` the
slice `l[-0:]` is `l[0:]`, the whole list. -/
def pyTakeLast (n : Nat) (l : List Exchange) : List Exchange :=
  if n = 0 then l else l.drop (l.length - n)

/-- `ConversationBufferWindowMemory.buffer` with
`return_messages=True` (LangChain `buffer_as_messages`): the last
`2*k` stored messages when `k > 0`, else `[]`. The underlying store
itself is not touched. -/
def memoryBuffer (k : Nat) (msgs : List Exchange) : List Exchange :=
  if 0 < k then pyTakeLast (k * 2) msgs else []

/-- `ConversationBufferWindowMemory.save_context` (line 381): appends
the user input and the assistant output to the stored message history;
no eviction happens on write. -/
def saveContext (msgs : List Exchange) (input output : String) :
    List Exchange :=
  msgs ++ [⟨Role.user, input⟩, ⟨Role.assistant, output⟩]

/-- The message context assembled before invoking the agent (lines
300-306): when the memory object exists and its buffer is non-empty,
the last `memory_window_size` messages of the buffer, then the new
user message. -/
def contextMessages (st : MCPClient) (text : String) : List Exchange :=
  let base : List Exchange :=
    match st.memory with
    | some msgs =>
        let buf := memoryBuffer st.config.memory_window_size msgs
        if buf = [] then [] else pyTakeLast st.config.memory_window_size buf
    | none => []
  base ++ [⟨Role.user, text⟩]

/-- `MCPClient.query` (lines 275-395). The not-connected guard
(lines 277-278) raises before the `try` block, so that exception
escapes. Inside the `try`: the greeting fast path returns at once
(lines 281-291); otherwise the stream is consumed — the accumulation
into `final_messages` / `intermediate_steps` happens only under
`self.config.verbose` (line 320) — the response is extracted (lines
351-367), the memory is updated (lines 379-381) and the success
dictionary returned (lines 383-387). Any exception from the stream is
caught and converted to the error dictionary (lines 389-395), leaving
the state untouched. -/
def MCPClient.query (st : MCPClient) (text : String) (run : StreamRun) :
    MCPClient × QueryOutcome :=
  if !st.agent then
    (st, .raised "Client not connected. Call connect() first.")
  else if isGreeting text then
    (st, .success cannedGreetingResponse [])
  else
    match run with
    | .exn _ e => (st, .error ("Query failed: " ++ e))
    | .ok items =>
        let acc := if st.config.verbose then processItems items else ([], [])
        let response_text := extractResponse acc.1
        let st1 : MCPClient :=
          match st.memory with
          | some msgs =>
              { st with memory := some (saveContext msgs text response_text) }
          | none => st
        (st1, .success response_text acc.2)

/-- A representative configuration (defaults of lines 144-157, with a
key present). -/
def cfgA : ClientConfig :=
  { groq_api_key := "key"
    groq_model := "llama-3.3-70b-versatile"
    mcp_url := "http://127.0.0.1:8000/mcp"
    max_iterations := 6
    agent_timeout := 90
    memory_window_size := 8
    connect_timeout := 12
    verbose := true }

/-- A freshly connected client with verbose logging on. -/
def stV : MCPClient :=
  { config := cfgA, agent := true, memory := some [], tools := ["get_time"] }

/-- The same client with verbose logging off. -/
def stQ : MCPClient :=
  { stV with config := { cfgA with verbose := false } }

/-- A connected client that still remembers one earlier exchange
pair. -/
def stC : MCPClient :=
  { config := cfgA, agent := true,
    memory := some [⟨Role.user, "u1"⟩, ⟨Role.assistant, "a1"⟩],
    tools := ["get_time"] }

/-- A 250-character tool result, longer than the 200-character
preview bound. -/
def longR : String :=
  ⟨List.replicate 250 'r'⟩

/-- The first 200 characters of `longR`. -/
def truncR : String :=
  ⟨List.replicate 200 'r'⟩

/-- A stream whose final agent turn has no tool calls but empty
content, shadowing an earlier non-empty turn. -/
def itemsShadow : List Item :=
  [("agent", [Message.ai "A" []]), ("agent", [Message.ai "" []])]

/-- The event sequence of the last-wins example: turn A, a tool
result, turn B, with no tool requests on A or B. -/
def itemsAB : List Item :=
  [("agent", [Message.ai "A" []]),
   ("tools", [Message.tool "get_time" "x"]),
   ("agent", [Message.ai "B" []])]

/-- A stream ending in a long tool result, with no trailing non-tool
agent turn. -/
def itemsFall : List Item :=
  [("agent", [Message.ai "" ["call_1"]]),
   ("tools", [Message.tool "web_search" longR])]

/-- A stream ending in a short tool result, with no trailing non-tool
agent turn. -/
def itemsFallShort : List Item :=
  [("agent", [Message.ai "" ["call_1"]]),
   ("tools", [Message.tool "get_time" "10:00"])]

/-- A stream with a long tool result followed by a final answer. -/
def itemsTrunc : List Item :=
  [("tools", [Message.tool "web_search" longR]),
   ("agent", [Message.ai "done" []])]

/-- A full reasoning round trip: a tool-requesting turn, the tool
result, and the final answer. -/
def itemsBusy : List Item :=
  [("agent", [Message.ai "" ["call_1"]]),
   ("tools", [Message.tool "get_time" "10:00"]),
   ("agent", [Message.ai "It is 10:00." []])]

/-- All messages yielded by the stream, in order. -/
def streamMessages (items : List Item) : List Message :=
  items.flatMap fun item => item.2

/-! ## Supporting lemmas -/

theorem extractResponse_of_lastNonTool_ne (fm : List Message)
    (h : lastNonToolAIText fm ≠ "") :
    extractResponse fm = lastNonToolAIText fm := by
  have hne : fm ≠ [] := by
    intro he
    subst he
    exact h rfl
  simp [extractResponse, hne, h]

theorem mem_toolSteps (s : Step) (msgs : List Message)
    (h : s ∈ toolSteps msgs) :
    ∃ name content, Message.tool name content ∈ msgs ∧
      s = ⟨name, pySlice content 200⟩ := by
  unfold toolSteps at h
  rcases List.mem_filterMap.1 h with ⟨m, hm, hsome⟩
  cases m with
  | ai c tc => simp at hsome
  | tool name content =>
      refine ⟨name, content, hm, ?_⟩
      simpa using hsome.symm

theorem mem_processItems_steps (s : Step) (items : List Item)
    (h : s ∈ (processItems items).2) :
    ∃ name content, Message.tool name content ∈ streamMessages items ∧
      s = ⟨name, pySlice content 200⟩ := by
  unfold processItems at h
  rcases List.mem_flatMap.1 h with ⟨item, hitem, hs⟩
  unfold itemSteps at hs
  by_cases h1 : item.1 = "agent"
  · rw [if_pos h1] at hs
    simp at hs
  · by_cases h2 : pyStartsWith item.1 "tools" = true
    · rw [if_neg h1, if_pos h2] at hs
      rcases mem_toolSteps s item.2 hs with ⟨name, content, hm, hseq⟩
      exact ⟨name, content, List.mem_flatMap.2 ⟨item, hitem, hm⟩, hseq⟩
    · rw [if_neg h1, if_neg h2] at hs
      simp at hs

theorem pySlice_length (s : String) (n : Nat) :
    (pySlice s n).length = min n s.length := by
  show (s.data.take n).length = min n s.data.length
  exact List.length_take n s.data

theorem pySlice_length_le (s : String) (n : Nat) :
    (pySlice s n).length ≤ n := by
  rw [pySlice_length]
  exact Nat.min_le_left _ _

theorem pySlice_of_length_le (s : String) (n : Nat) (h : s.length ≤ n) :
    pySlice s n = s := by
  cases s with
  | mk data =>
      unfold pySlice
      have hd : data.length ≤ n := h
      rw [List.take_of_length_le hd]

theorem pySlice_ne_of_lt (s : String) (n : Nat) (h : n < s.length) :
    pySlice s n ≠ s := by
  intro he
  have hl := congrArg String.length he
  rw [pySlice_length] at hl
  omega

/-! ## Claims -/

/-- C1, counterexample: `query()` invoked before `connect()` does not
yield a structured error result — the guard at lines 277-278 sits
before the `try` block, so the `RuntimeError` escapes to the caller
as a raised exception. -/
theorem c1_counterexample :
    (MCPClient.init cfgA).query "what time is it" (.ok []) =
      (MCPClient.init cfgA,
        QueryOutcome.raised "Client not connected. Call connect() first.") ∧
    ∀ m : String,
      QueryOutcome.raised "Client not connected. Call connect() first." ≠
        QueryOutcome.error m := by
  refine ⟨by decide, ?_⟩
  intro m h
  exact QueryOutcome.noConfusion h

/-- C1 (amended): for a connected client, `query()` never lets an
exception escape — every outcome is a structured success or error
result; only the before-connect guard raises (see the
counterexample), and it has no side effects. -/
theorem c1_no_raise_when_connected (st : MCPClient) (text : String)
    (run : StreamRun) (m : String) (hA : st.agent = true) :
    (st.query text run).2 ≠ QueryOutcome.raised m := by
  rcases run with ⟨items⟩ | ⟨items, e⟩ <;>
    by_cases hG : isGreeting text = true <;>
      simp [MCPClient.query, hA, hG]

/-- C1 witness: a connected client turns a transport exception into a
structured error, never a raised exception. -/
theorem c1_no_raise_when_connected_witness :
    stV.agent = true ∧
      (stV.query "tell me a joke" (.exn [] "boom")).2 ≠
        QueryOutcome.raised "boom" :=
  ⟨rfl, c1_no_raise_when_connected stV "tell me a joke"
    (.exn [] "boom") "boom" rfl⟩

/-- C2, counterexample: the stream `[AgentTurn "A", AgentTurn ""]`
(no tool requests on either turn) has its latest non-empty non-tool
turn carrying `"A"`, yet the response is `""`: the reversed scan of
lines 353-359 stops at the last non-tool `AIMessage` even when its
content is empty, and the fallback then returns that same empty
content. -/
theorem c2_counterexample :
    (stV.query "what is the answer" (.ok itemsShadow)).2 =
      QueryOutcome.success "" [] ∧
    ("" : String) ≠ "A" :=
  ⟨by decide, by decide⟩

/-- C2 (amended): with verbose logging enabled (the accumulation is
gated on it), whenever the LAST agent turn carrying no tool requests
has non-empty text, that text becomes the final response — in
particular `[AgentTurn "A", ToolResult x, AgentTurn "B"]` yields
`"B"`. A later empty non-tool turn, however, shadows earlier
non-empty ones (see the counterexample). -/
theorem c2_last_nonempty_final_turn_wins (st : MCPClient)
    (text : String) (items : List Item) (hA : st.agent = true)
    (hV : st.config.verbose = true) (hG : isGreeting text = false)
    (hne : lastNonToolAIText (processItems items).1 ≠ "") :
    (st.query text (.ok items)).2 =
      QueryOutcome.success (lastNonToolAIText (processItems items).1)
        (processItems items).2 := by
  simp [MCPClient.query, hA, hV, hG,
    extractResponse_of_lastNonTool_ne _ hne]

/-- C2 witness: the spec example stream yields response `"B"`. -/
theorem c2_witness :
    stV.agent = true ∧ stV.config.verbose = true ∧
    isGreeting "what is the time" = false ∧
    lastNonToolAIText (processItems itemsAB).1 ≠ "" ∧
    lastNonToolAIText (processItems itemsAB).1 = "B" ∧
    (stV.query "what is the time" (.ok itemsAB)).2 =
      QueryOutcome.success (lastNonToolAIText (processItems itemsAB).1)
        (processItems itemsAB).2 :=
  ⟨rfl, rfl, by decide, by decide, by decide,
    c2_last_nonempty_final_turn_wins stV "what is the time" itemsAB
      rfl rfl (by decide) (by decide)⟩

/-- C3, counterexample: a stream ending in a 250-character tool
result with no trailing non-tool agent turn yields the FULL raw
content as the response (the fallback at lines 362-367 reads
`last_msg.content`, not the 200-character preview stored in the
trace), so the response is not the tool result preview text. -/
theorem c3_counterexample :
    (stV.query "search the docs" (.ok itemsFall)).2 =
      QueryOutcome.success longR [⟨"web_search", truncR⟩] ∧
    longR ≠ truncR :=
  ⟨by decide, by decide⟩

/-- C3 (amended): with verbose logging enabled, when no agent turn
without tool calls carries non-empty text, the response equals the
full (untruncated) `content` of the very last accumulated message —
for a trailing tool result, its raw content, not its 200-character
trace preview. -/
theorem c3_fallback_is_full_last_content (st : MCPClient)
    (text : String) (items : List Item) (lastMsg : Message)
    (hA : st.agent = true) (hV : st.config.verbose = true)
    (hG : isGreeting text = false)
    (hempty : lastNonToolAIText (processItems items).1 = "")
    (hlast : (processItems items).1.getLast? = some lastMsg) :
    (st.query text (.ok items)).2 =
      QueryOutcome.success lastMsg.content (processItems items).2 := by
  have hne : (processItems items).1 ≠ [] := by
    intro he
    rw [he] at hlast
    simp at hlast
  simp [MCPClient.query, hA, hV, hG, extractResponse, hne, hempty, hlast]

/-- C3 witness: a stream ending in the tool result `"10:00"` answers
with that tool content. -/
theorem c3_witness :
    stV.agent = true ∧ stV.config.verbose = true ∧
    isGreeting "time please" = false ∧
    lastNonToolAIText (processItems itemsFallShort).1 = "" ∧
    (processItems itemsFallShort).1.getLast? =
      some (Message.tool "get_time" "10:00") ∧
    (stV.query "time please" (.ok itemsFallShort)).2 =
      QueryOutcome.success (Message.tool "get_time" "10:00").content
        (processItems itemsFallShort).2 :=
  ⟨rfl, rfl, by decide, by decide, by decide,
    c3_fallback_is_full_last_content stV "time please" itemsFallShort
      (Message.tool "get_time" "10:00") rfl rfl (by decide) (by decide)
      (by decide)⟩

/-- C4, counterexample: a non-greeting query whose stream produces no
events at all returns `status: success` with an empty response string
— there is no `EmptyResponseError` anywhere in the code. -/
theorem c4_counterexample :
    (stV.query "what is two plus two" (.ok [])).2 =
      QueryOutcome.success "" [] ∧
    ∀ m : String,
      QueryOutcome.success "" [] ≠ QueryOutcome.error m := by
  refine ⟨by decide, ?_⟩
  intro m h
  exact QueryOutcome.noConfusion h

/-- C4 (amended): for every connected client and non-greeting query,
a stream with no events yields `status: success` with the empty
response string and an empty step trace — a silent empty success,
never an error. -/
theorem c4_empty_stream_is_empty_success (st : MCPClient)
    (text : String) (hA : st.agent = true)
    (hG : isGreeting text = false) :
    (st.query text (.ok [])).2 = QueryOutcome.success "" [] := by
  cases hv : st.config.verbose <;>
    simp [MCPClient.query, hA, hG, hv, processItems, extractResponse]

/-- C4 witness: an empty stream is reported as an empty success. -/
theorem c4_witness :
    stQ.agent = true ∧ isGreeting "calculate something" = false ∧
    (stQ.query "calculate something" (.ok [])).2 =
      QueryOutcome.success "" [] :=
  ⟨rfl, by decide,
    c4_empty_stream_is_empty_success stQ "calculate something" rfl
      (by decide)⟩

/-- C5 (confirmed): whenever `query()` returns a `status: error`
result, the conversation memory is exactly what it was before the
call — `save_context` (line 381) runs only on the success path, after
the loop fully resolves, and the `except` block (lines 389-395)
returns without mutating any state. -/
theorem c5_error_result_preserves_memory (st : MCPClient)
    (text : String) (run : StreamRun) (m : String)
    (h : (st.query text run).2 = QueryOutcome.error m) :
    (st.query text run).1.memory = st.memory := by
  by_cases hA : st.agent = true
  · by_cases hG : isGreeting text = true
    · simp [MCPClient.query, hA, hG] at h
    · rcases run with ⟨items⟩ | ⟨items, e⟩
      · simp [MCPClient.query, hA, hG] at h
      · simp [MCPClient.query, hA, hG]
  · have hA2 : st.agent = false := by
      simpa using hA
    simp [MCPClient.query, hA2] at h

/-- C5 witness: a transport failure yields an error result and leaves
the memory untouched. -/
theorem c5_witness :
    (stV.query "weather today" (.exn [] "socket closed")).2 =
      QueryOutcome.error "Query failed: socket closed" ∧
    (stV.query "weather today" (.exn [] "socket closed")).1.memory =
      stV.memory :=
  ⟨by decide,
    c5_error_result_preserves_memory stV "weather today"
      (.exn [] "socket closed") "Query failed: socket closed"
      (by decide)⟩

/-- C6 (confirmed, implicit): with `verbose = false`, every
non-greeting query whose stream completes without raising returns
`status: success` with the empty response string and an empty step
trace, whatever the stream contained — the accumulation into
`final_messages` and `intermediate_steps` happens only inside the
`if self.config.verbose:` branch (line 320), so the returned answer
depends on the logging flag. -/
theorem c6_verbose_off_empty_success (st : MCPClient) (text : String)
    (items : List Item) (hA : st.agent = true)
    (hV : st.config.verbose = false) (hG : isGreeting text = false) :
    (st.query text (.ok items)).2 = QueryOutcome.success "" [] := by
  simp [MCPClient.query, hA, hV, hG, extractResponse]

/-- C6 witness: with verbose off, a stream that actually produced the
answer `"It is 10:00."` still yields an empty success. -/
theorem c6_witness :
    stQ.agent = true ∧ stQ.config.verbose = false ∧
    isGreeting "what time is it" = false ∧
    (stQ.query "what time is it" (.ok itemsBusy)).2 =
      QueryOutcome.success "" [] :=
  ⟨rfl, rfl, by decide,
    c6_verbose_off_empty_success stQ "what time is it" itemsBusy rfl
      rfl (by decide)⟩

/-- C7, counterexample: a 250-character tool result is stored in the
trace as exactly its first 200 characters — truncated, but with NO
truncation marker appended (in particular not the customary
three-dot marker, which appears only in log output at lines 110 and
345, never in `intermediate_steps`). -/
theorem c7_counterexample :
    (stV.query "find documentation" (.ok itemsTrunc)).2 =
      QueryOutcome.success "done" [⟨"web_search", truncR⟩] ∧
    truncR ≠ longR ∧
    truncR ≠ pySlice longR 200 ++ "..." :=
  ⟨by decide, by decide, by decide⟩

/-- C7 (amended): every entry of the step trace of a successful
verbose query comes from a tool message of the stream and stores
exactly the first 200 characters of that message's raw result — thus
at most 200 characters, the complete result iff the result is at most
200 characters long, and never the full value of a longer result; no
truncation marker is appended (the stored string is literally
`pySlice content 200`). -/
theorem c7_trace_entries_truncated (st : MCPClient) (text : String)
    (items : List Item) (resp : String) (steps : List Step) (s : Step)
    (hA : st.agent = true) (hV : st.config.verbose = true)
    (hG : isGreeting text = false)
    (hq : (st.query text (.ok items)).2 =
      QueryOutcome.success resp steps)
    (hs : s ∈ steps) :
    ∃ name content, Message.tool name content ∈ streamMessages items ∧
      s = ⟨name, pySlice content 200⟩ ∧
      s.result.length ≤ 200 ∧
      (content.length ≤ 200 → s.result = content) ∧
      (200 < content.length → s.result ≠ content) := by
  have hq2 : (st.query text (.ok items)).2 =
      QueryOutcome.success (extractResponse (processItems items).1)
        (processItems items).2 := by
    simp [MCPClient.query, hA, hV, hG]
  rw [hq] at hq2
  have hsteps : steps = (processItems items).2 := by
    injection hq2 with h1 h2
  rcases mem_processItems_steps s items (hsteps ▸ hs) with
    ⟨name, content, hmem, hseq⟩
  refine ⟨name, content, hmem, hseq, ?_, ?_, ?_⟩
  · rw [hseq]
    exact pySlice_length_le content 200
  · intro hle
    rw [hseq]
    exact pySlice_of_length_le content 200 hle
  · intro hlt
    rw [hseq]
    exact pySlice_ne_of_lt content 200 hlt

/-- C7 witness: the long tool result of `itemsTrunc` appears in the
trace as its plain 200-character prefix. -/
theorem c7_witness :
    stV.agent = true ∧ stV.config.verbose = true ∧
    isGreeting "find the docs" = false ∧
    (stV.query "find the docs" (.ok itemsTrunc)).2 =
      QueryOutcome.success "done" [⟨"web_search", truncR⟩] ∧
    (⟨"web_search", truncR⟩ : Step) ∈
      [(⟨"web_search", truncR⟩ : Step)] ∧
    (∃ name content,
      Message.tool name content ∈ streamMessages itemsTrunc ∧
      (⟨"web_search", truncR⟩ : Step) = ⟨name, pySlice content 200⟩ ∧
      (⟨"web_search", truncR⟩ : Step).result.length ≤ 200 ∧
      (content.length ≤ 200 →
        (⟨"web_search", truncR⟩ : Step).result = content) ∧
      (200 < content.length →
        (⟨"web_search", truncR⟩ : Step).result ≠ content)) :=
  ⟨rfl, rfl, by decide, by decide, by decide,
    c7_trace_entries_truncated stV "find the docs" itemsTrunc "done"
      [⟨"web_search", truncR⟩] ⟨"web_search", truncR⟩ rfl rfl
      (by decide) (by decide) (by decide)⟩

/-- C8, counterexample: calling `connect()` on an already connected
client is not a no-op — it re-fetches the tool catalog (the tool list
becomes the new fetch) and re-creates the conversation memory empty,
discarding the remembered exchanges. -/
theorem c8_counterexample :
    (stC.connect (.ok ["get_time", "calculate"])).1 ≠ stC ∧
    (stC.connect (.ok ["get_time", "calculate"])).1.memory = some [] ∧
    stC.memory = some [⟨Role.user, "u1"⟩, ⟨Role.assistant, "a1"⟩] ∧
    (stC.connect (.ok ["get_time", "calculate"])).1.tools =
      ["get_time", "calculate"] :=
  ⟨by decide, by decide, by decide, by decide⟩

/-- C8 (amended): `connect()` is not idempotent: whenever the API key
is present, a call — also on an already connected client — re-runs
the full initialization: conversation memory is reinitialized to
empty, the tool catalog is replaced by the fresh fetch, and the agent
is rebuilt. -/
theorem c8_connect_reinitializes (st : MCPClient) (ts : List String)
    (h : st.config.groq_api_key ≠ "") :
    st.connect (.ok ts) =
      ({ st with memory := some [], tools := ts, agent := true },
        ConnectResult.ok) := by
  simp [MCPClient.connect, h]

/-- C8 witness: reconnecting the client `stC` wipes its memory and
replaces its tools. -/
theorem c8_witness :
    stC.config.groq_api_key ≠ "" ∧
    stC.connect (.ok ["calculate"]) =
      ({ stC with memory := some [], tools := ["calculate"], agent := true }, ConnectResult.ok) :=
  ⟨by decide, c8_connect_reinitializes stC ["calculate"] (by decide)⟩

/-- A connected client with window size 1 and empty memory. -/
def stW : MCPClient :=
  { config := { cfgA with memory_window_size := 1 }, agent := true,
    memory := some [], tools := [] }

/-- A stream answering `"r1"`. -/
def runR1 : StreamRun := .ok [("agent", [Message.ai "r1" []])]

/-- A stream answering `"r2"`. -/
def runR2 : StreamRun := .ok [("agent", [Message.ai "r2" []])]

/-- The client after one successful query. -/
def stW1 : MCPClient := (stW.query "q1" runR1).1

/-- The client after two successful queries. -/
def stW2 : MCPClient := (stW1.query "q2" runR2).1

/-- C9, counterexample: with window size `W = 1`, two successful
queries leave FOUR messages in the conversation memory —
`ConversationBufferWindowMemory.save_context` only appends, so the
underlying store exceeds `2·W` and no oldest pair is ever discarded;
the window is applied only when reading the `buffer` view. -/
theorem c9_counterexample :
    (stW.query "q1" runR1).2 = QueryOutcome.success "r1" [] ∧
    (stW1.query "q2" runR2).2 = QueryOutcome.success "r2" [] ∧
    stW2.memory = some [⟨Role.user, "q1"⟩, ⟨Role.assistant, "r1"⟩,
      ⟨Role.user, "q2"⟩, ⟨Role.assistant, "r2"⟩] ∧
    stW.config.memory_window_size = 1 ∧
    2 * stW.config.memory_window_size < 4 :=
  ⟨by decide, by decide, by decide, by decide, by decide⟩

/-- C9 (amended): the eviction invariant holds only of the memory's
read-side `buffer` view, not of the stored history: for every window
size `k` and stored message list, the buffer exposes at most `2·k`
messages and is a suffix of the store (most recent kept, oldest
omitted first); the store itself grows without bound (see the
counterexample). -/
theorem c9_buffer_windowed (k : Nat) (msgs : List Exchange) :
    (memoryBuffer k msgs).length ≤ 2 * k ∧
      memoryBuffer k msgs <:+ msgs := by
  unfold memoryBuffer pyTakeLast
  by_cases hk : 0 < k
  · have hk2 : ¬ (k * 2 = 0) := by omega
    rw [if_pos hk, if_neg hk2]
    constructor
    · rw [List.length_drop]
      omega
    · exact List.drop_suffix _ _
  · rw [if_neg hk]
    exact ⟨Nat.zero_le _, List.nil_suffix⟩

/-- C10 (confirmed): for a connected client, any input whose
lower-cased, stripped text is a greeting token returns `status:
success` with the canned response, an empty step trace (hence no
`ToolResult` entries), leaves the state untouched, and never consumes
the stream — the result is the same for every possible stream
outcome, so the reasoning loop is not invoked. -/
theorem c10_greeting_fast_path (st : MCPClient) (text : String)
    (run : StreamRun) (hA : st.agent = true)
    (hG : isGreeting text = true) :
    st.query text run = (st, QueryOutcome.success cannedGreetingResponse []) := by
  simp [MCPClient.query, hA, hG]

/-- C10 witness: `"hi"`, `"Hello"` and `"  HEY  "` all take the fast
path, even when the stream would have raised. -/
theorem c10_witness :
    stV.agent = true ∧
    isGreeting "hi" = true ∧ isGreeting "Hello" = true ∧
    isGreeting "  HEY  " = true ∧
    stV.query "hi" (.exn [] "loop never invoked") =
      (stV, QueryOutcome.success cannedGreetingResponse []) ∧
    stV.query "Hello" (.ok [("tools", [Message.tool "t" "x"])]) =
      (stV, QueryOutcome.success cannedGreetingResponse []) ∧
    stV.query "  HEY  " (.ok []) =
      (stV, QueryOutcome.success cannedGreetingResponse []) :=
  ⟨rfl, by decide, by decide, by decide,
    c10_greeting_fast_path stV "hi" (.exn [] "loop never invoked") rfl
      (by decide),
    c10_greeting_fast_path stV "Hello"
      (.ok [("tools", [Message.tool "t" "x"])]) rfl (by decide),
    c10_greeting_fast_path stV "  HEY  " (.ok []) rfl (by decide)⟩

end MCP
